import Mathlib

set_option maxRecDepth 100000

/-!
Verification of the serving-time feature transformation and prediction
service of the Telco churn repository (src/serving/inference.py and
src/app/main.py), as a shallow embedding in Lean 4.

A raw customer record reaches `predict` as a Python dict and is turned
into a single-row pandas DataFrame (`pd.DataFrame([input_dict])`).  We
embed such a one-row frame as an ordered association list from column
name to cell value.  A cell carries one of the scalar dtypes that can
actually occur in this pipeline: a string (pandas object dtype), a
rational number standing for a float, an integer, or a boolean.
Rationals stand in for IEEE doubles; every constant the code compares
against (0.35, 0.85, 0.15, 100) is exactly representable, so no claim
below depends on rounding behaviour.
-/

deriving instance DecidableEq for Except

/-- One scalar value of a DataFrame cell, covering the dtypes that occur
in the serving pipeline: object (string), float, int, bool. -/
inductive Cell where
  | cStr (s : String)
  | cNum (q : Rat)
  | cInt (n : Int)
  | cBool (b : Bool)
deriving DecidableEq, Repr

/-- A single-row DataFrame: an ordered list of (column name, cell). -/
abbrev DF := List (String × Cell)

/-- Label lookup in a frame, returning the first matching column, as
pandas label indexing does on a frame with unique column labels. -/
def dfLookup (c : String) : DF → Option Cell
  | [] => none
  | kv :: rest => if kv.1 = c then some kv.2 else dfLookup c rest

/-- Remove leading and trailing whitespace from a character list, the
effect of Python str.strip() and of pandas .str.strip(). -/
def trimChars (cs : List Char) : List Char :=
  ((cs.dropWhile Char.isWhitespace).reverse.dropWhile Char.isWhitespace).reverse

/-- str.strip() on a Lean string, via its character list.  (The builtin
String.trim is equivalent but does not reduce inside the kernel.) -/
def strTrim (s : String) : String :=
  String.mk (trimChars s.data)

/-- Parse a non-empty list of decimal digit characters into a Nat. -/
def parseDigits : List Char → Option Nat
  | [] => none
  | cs =>
    cs.foldl
      (fun acc c =>
        match acc with
        | some n => if c.isDigit then some (n * 10 + (c.toNat - 48)) else none
        | none => none)
      (some 0)

/-- Split a character list at every occurrence of one separator. -/
def splitOnChar (sep : Char) : List Char → List (List Char)
  | [] => [[]]
  | c :: rest =>
    let r := splitOnChar sep rest
    if c = sep then [] :: r
    else
      match r with
      | h :: t => (c :: h) :: t
      | [] => [[c]]

/-- Split a float literal into mantissa and optional exponent part at a
single letter e or E, as the CPython float grammar does. -/
def splitExp (t : List Char) : List Char × Option (List Char) :=
  match splitOnChar 'e' t with
  | [m, e] => (m, some e)
  | _ =>
    match splitOnChar 'E' t with
    | [m, e] => (m, some e)
    | _ => (t, none)

/-- Ten to a natural power, as a rational. -/
def pow10 : Nat → Rat
  | 0 => 1
  | n + 1 => 10 * pow10 n

/-- The numeric parser behind `pd.to_numeric(df[c], errors="coerce")` on
a string cell: leading/trailing whitespace is ignored, an optional sign,
a decimal mantissa with optional fraction, and an optional signed
integer exponent are accepted; anything else yields `none` (pandas NaN).
The special float spellings inf and nan are outside the rational model:
nan coerces to NaN and is then filled with 0 exactly as a parse failure
is, and infinities do not occur in this data. -/
def parseRatChars (cs0 : List Char) : Option Rat :=
  let cs := trimChars cs0
  let (sgn, b) :=
    match cs with
    | '-' :: rest => ((-1 : Rat), rest)
    | '+' :: rest => ((1 : Rat), rest)
    | _ => ((1 : Rat), cs)
  let (mCs, eCs) := splitExp b
  let mantissa : Option Rat :=
    match splitOnChar '.' mCs with
    | [ip] => (parseDigits ip).map (fun n => ((n : Int) : Rat))
    | [ip, fp] =>
      if ip.isEmpty && fp.isEmpty then none
      else
        match (if ip.isEmpty then some 0 else parseDigits ip),
              (if fp.isEmpty then some 0 else parseDigits fp) with
        | some a, some f => some (((a : Int) : Rat) + ((f : Int) : Rat) / pow10 fp.length)
        | _, _ => none
    | _ => none
  match mantissa, eCs with
  | some m, none => some (sgn * m)
  | some m, some es =>
    let (epos, eb) :=
      match es with
      | '-' :: rest => (false, rest)
      | '+' :: rest => (true, rest)
      | _ => (true, es)
    (parseDigits eb).map (fun e => if epos then sgn * m * pow10 e else sgn * m / pow10 e)
  | none, _ => none

/-- `pd.to_numeric(_, errors="coerce")` on one string value. -/
def parseRat (s : String) : Option Rat :=
  parseRatChars s.data

/-- Numeric columns needing type coercion (NUMERIC_COLS in the source). -/
def NUMERIC_COLS : List String := ["tenure", "MonthlyCharges", "TotalCharges"]

/-- Deterministic binary feature mappings (BINARY_MAP in the source). -/
def BINARY_MAP : List (String × List (String × Int)) :=
  [("gender", [("Female", 0), ("Male", 1)]),
   ("Partner", [("No", 0), ("Yes", 1)]),
   ("Dependents", [("No", 0), ("Yes", 1)]),
   ("PhoneService", [("No", 0), ("Yes", 1)]),
   ("PaperlessBilling", [("No", 0), ("Yes", 1)])]

/-- The effect of `pd.to_numeric(df[c], errors="coerce")` followed by
`.fillna(0)` on one cell: numbers pass through, booleans coerce to 0/1,
and a string is parsed, with parse failure (NaN) filled with 0. -/
def toNumericCell : Cell → Cell
  | .cNum q => .cNum q
  | .cInt n => .cNum (n : Rat)
  | .cBool b => .cNum (if b then 1 else 0)
  | .cStr s => .cNum ((parseRat s).getD 0)

/-- `str(v)` as applied by `.astype(str)` to one cell.  The rendering of
a rational differs textually from the CPython float repr, but the
pipeline only ever compares these strings against the category words of
BINARY_MAP ("Female", "Male", "No", "Yes"), which no numeric or boolean
rendering equals. -/
def cellToPyStr : Cell → String
  | .cStr s => s
  | .cNum q => "float:" ++ toString q.num ++ "/" ++ toString q.den
  | .cInt n => toString n
  | .cBool b => if b then "True" else "False"

/-- The binary-encoding chain of the source on one cell:
`.astype(str).str.strip().map(mapping).astype("Int64").fillna(0).astype(int)`
- render to string, trim, look up in the two-entry table, and fill any
unmapped value with 0. -/
def binEncodeCell (mapping : List (String × Int)) (v : Cell) : Cell :=
  .cInt ((mapping.lookup (strTrim (cellToPyStr v))).getD 0)

/-- Column-wise in-place assignment `df[c] = f(df[c])`, guarded by
`if c in df.columns` as in the source. -/
def applyCol (c : String) (f : Cell → Cell) (df : DF) : DF :=
  if df.any (fun kv => kv.1 = c) then
    df.map (fun kv => if kv.1 = c then (kv.1, f kv.2) else kv)
  else df

/-- `df.columns = df.columns.str.strip()` - trim whitespace from every
column name. -/
def stripColumnNames (df : DF) : DF :=
  df.map (fun kv => (strTrim kv.1, kv.2))

/-- STEP 1 of `_serve_transform`: numeric type coercion over
NUMERIC_COLS. -/
def coerceNumerics (df : DF) : DF :=
  NUMERIC_COLS.foldl (fun d c => applyCol c toNumericCell d) df

/-- STEP 2 of `_serve_transform`: binary feature encoding over
BINARY_MAP. -/
def encodeBinaries (df : DF) : DF :=
  BINARY_MAP.foldl (fun d cm => applyCol cm.1 (binEncodeCell cm.2) d) df

/-- Whether a cell has pandas object dtype (a string column in a
single-row frame). -/
def isObjCell : Cell → Bool
  | .cStr _ => true
  | _ => false

/-- STEP 3 of `_serve_transform` specialised to the one-row frames this
function actually receives (predict builds `pd.DataFrame([input_dict])`):
`pd.get_dummies(df, columns=obj_cols, drop_first=True)` on a one-row
frame sees exactly one category per object column, and `drop_first=True`
drops that sole category, so every object column is removed and no
indicator column is added.  The spec itself records this behaviour: a
single-row input only ever contains one category per field, so the
naive re-derivation drops every observed value and the later reindex is
load-bearing. -/
def oneHotSingleRow (df : DF) : DF :=
  df.filter (fun kv => !isObjCell kv.2)

/-- `.astype(int)` on one boolean cell. -/
def boolToIntCell : Cell → Cell
  | .cBool b => .cInt (if b then 1 else 0)
  | v => v

/-- STEP 4 of `_serve_transform`: boolean to integer conversion of every
bool-dtype column. -/
def boolsToInt (df : DF) : DF :=
  df.map (fun kv => (kv.1, boolToIntCell kv.2))

/-- STEP 5 of `_serve_transform`:
`df.reindex(columns=FEATURE_COLS, fill_value=0)` - the output has
exactly the feature columns in schema order, a missing column is filled
with integer 0, and any other column is dropped. -/
def reindexCols (featureCols : List String) (df : DF) : DF :=
  featureCols.map (fun c => (c, (dfLookup c df).getD (.cInt 0)))

/-- `_serve_transform` of src/serving/inference.py on a one-row frame,
parameterised by FEATURE_COLS (the schema file is a training artifact
loaded at startup, not part of src/).  The initial `df.copy()` is the
identity on the value; its aliasing effect is modelled separately by
`serve_transform_heap`. -/
def serve_transform (featureCols : List String) (df : DF) : DF :=
  reindexCols featureCols
    (boolsToInt (oneHotSingleRow (encodeBinaries (coerceNumerics (stripColumnNames df)))))

/-!
The prediction service `predict` of src/serving/inference.py.  The
trained classifier is an opaque external collaborator loaded at
startup; we model it by its two callable surfaces.  To be able to state
that a failed invocation is not retried, the hard `model.predict` call
is modelled as a stream of per-invocation outcomes indexed by the
invocation count; the source performs exactly one call, embedded as
consuming invocation 0 only.
-/

/-- The opaque loaded classifier: `predict_proba` (guarded by `hasattr`
and possibly raising - the Except error carries the exception text) and
`predict`, whose Nat argument is the invocation index.  `predict_proba`
returns the usual [[p0, p1]] row-per-sample nested list. -/
structure ClassifierModel where
  hasPredictProba : Bool
  predictProba : DF → Except String (List (List Rat))
  predictHard : Nat → DF → Except String (List Int)

/-- The structured dictionary returned by `predict` on success. -/
structure PredictionResult where
  prediction : String
  score : Rat
  raw_prob : Rat
  threshold_used : Rat
  features_used : List String
deriving DecidableEq, Repr

/-- Probability extraction from the `predict_proba` return value, lines
238-244 of inference.py: with the nested [[p0, p1]] shape the code reads
`probs[0][1]`; a missing entry raises IndexError, which the surrounding
inner `try` swallows (modelled as `none`).  An empty list falls into the
flat-array branch `float(probs[1])`, which also raises and is swallowed. -/
def extractProb (probs : List (List Rat)) : Option Rat :=
  match probs with
  | row :: _ => row.get? 1
  | [] => none

/-- Lines 232-246 of inference.py: `prob_churn` starts at -1.0; if the
model has `predict_proba` and the guarded call and extraction succeed,
the extracted value replaces it; any exception in that inner block is
caught and only logged, leaving -1.0 in place. -/
def probChurn0 (m : ClassifierModel) (dfEnc : DF) : Rat :=
  if m.hasPredictProba then
    match m.predictProba dfEnc with
    | .ok probs => (extractProb probs).getD (-1)
    | .error _ => -1
  else -1

/-- `predict` of src/serving/inference.py, parameterised by the feature
schema and the loaded classifier.  The input dict has become a one-row
frame via `pd.DataFrame([input_dict])`.  Any exception inside the model
scoring block is re-raised as `Exception("Model prediction failed: <e>")`
(line 273), embedded as the Except error case.  An empty prediction list
makes `int(preds)` raise a TypeError whose text we abbreviate; it takes
the same wrapping path. -/
def predict (featureCols : List String) (m : ClassifierModel) (input : DF) :
    Except String PredictionResult :=
  let dfEnc := serve_transform featureCols input
  let p0 := probChurn0 m dfEnc
  match m.predictHard 0 dfEnc with
  | .error e => .error ("Model prediction failed: " ++ e)
  | .ok preds =>
    match preds with
    | [] => .error ("Model prediction failed: " ++ "int() argument conversion failed")
    | r :: _ =>
      let prob_churn := if p0 >= 0 then p0 else if r = 1 then (0.85 : Rat) else (0.15 : Rat)
      let score_pct := prob_churn * 100
      let is_high_risk := prob_churn >= (0.35 : Rat)
      .ok { prediction := if is_high_risk then "Likely to churn" else "Not likely to churn"
            score := score_pct
            raw_prob := prob_churn
            threshold_used := (0.35 : Rat)
            features_used := dfEnc.map Prod.fst }

/-!
The request surface `get_prediction` of src/app/main.py.  The endpoint
receives a Pydantic-validated CustomerData record (18 required fields),
converts it to a dict, calls `predict`, and wraps the outcome in a JSON
object.
-/

/-- A JSON value, the shape of the endpoint response body.  The only
list ever serialised by this endpoint is the list of feature-name
strings, so the array case is specialised to string arrays, which keeps
equality decidable by structural recursion. -/
inductive JVal where
  | jStr (s : String)
  | jNum (q : Rat)
  | jStrList (xs : List String)
  | jObj (fields : List (String × JVal))
deriving Repr

/-- The CustomerData request schema of src/app/main.py: the exact 18
required features. -/
structure CustomerData where
  gender : String
  Partner : String
  Dependents : String
  PhoneService : String
  MultipleLines : String
  InternetService : String
  OnlineSecurity : String
  OnlineBackup : String
  DeviceProtection : String
  TechSupport : String
  StreamingTV : String
  StreamingMovies : String
  Contract : String
  PaperlessBilling : String
  PaymentMethod : String
  tenure : Int
  MonthlyCharges : Rat
  TotalCharges : Rat

/-- `data.dict()` - the validated record as the dict handed to
`predict`, in field declaration order. -/
def customerToDict (d : CustomerData) : DF :=
  [("gender", .cStr d.gender),
   ("Partner", .cStr d.Partner),
   ("Dependents", .cStr d.Dependents),
   ("PhoneService", .cStr d.PhoneService),
   ("MultipleLines", .cStr d.MultipleLines),
   ("InternetService", .cStr d.InternetService),
   ("OnlineSecurity", .cStr d.OnlineSecurity),
   ("OnlineBackup", .cStr d.OnlineBackup),
   ("DeviceProtection", .cStr d.DeviceProtection),
   ("TechSupport", .cStr d.TechSupport),
   ("StreamingTV", .cStr d.StreamingTV),
   ("StreamingMovies", .cStr d.StreamingMovies),
   ("Contract", .cStr d.Contract),
   ("PaperlessBilling", .cStr d.PaperlessBilling),
   ("PaymentMethod", .cStr d.PaymentMethod),
   ("tenure", .cInt d.tenure),
   ("MonthlyCharges", .cNum d.MonthlyCharges),
   ("TotalCharges", .cNum d.TotalCharges)]

/-- JSON serialisation of the dict returned by `predict`. -/
def resultToJson (r : PredictionResult) : JVal :=
  .jObj [("prediction", .jStr r.prediction),
         ("score", .jNum r.score),
         ("raw_prob", .jNum r.raw_prob),
         ("threshold_used", .jNum r.threshold_used),
         ("features_used", .jStrList r.features_used)]

/-- `get_prediction` of src/app/main.py, lines 73-93: on success the
whole dict returned by `predict` is placed under the key "prediction"
(`return {"prediction": result}`); an exception becomes
`{"error": str(e)}`. -/
def get_prediction (featureCols : List String) (m : ClassifierModel)
    (data : CustomerData) : JVal :=
  match predict featureCols m (customerToDict data) with
  | .ok res => .jObj [("prediction", resultToJson res)]
  | .error e => .jObj [("error", .jStr e)]

/-!
Spec-side model of the decision threshold.  The spec states the
threshold is "sourced from training-run parameters" and "persisted from
training configuration, not hardcoded silently"; the training pipeline
and its persisted run parameters are not part of src/, so the persisted
configuration is modelled from the spec and the prediction service as
the spec describes it is reconstructed for comparison with the source
`predict`.
-/

/-- Modelled from the spec: the persisted training-run parameters that
src/ never loads.  Spec section 6 calls the decision threshold
"Configuration: decision threshold value, typically 0.35, sourced from
training-run parameters - must be treated as data, not a compiled-in
constant". -/
structure TrainingParams where
  threshold : Rat

/-- Modelled from the spec: the Prediction Service as spec section 4.2
describes it, identical to the source `predict` except that the decision
threshold applied to the probability and reported as threshold_used is
`params.threshold` read from the persisted training configuration,
rather than a literal in the serving code.  Used only to compare against
the source `predict`. -/
def predictSpec (params : TrainingParams) (featureCols : List String)
    (m : ClassifierModel) (input : DF) : Except String PredictionResult :=
  let dfEnc := serve_transform featureCols input
  let p0 := probChurn0 m dfEnc
  match m.predictHard 0 dfEnc with
  | .error e => .error ("Model prediction failed: " ++ e)
  | .ok preds =>
    match preds with
    | [] => .error ("Model prediction failed: " ++ "int() argument conversion failed")
    | r :: _ =>
      let prob_churn := if p0 >= 0 then p0 else if r = 1 then (0.85 : Rat) else (0.15 : Rat)
      let score_pct := prob_churn * 100
      let is_high_risk := prob_churn >= params.threshold
      .ok { prediction := if is_high_risk then "Likely to churn" else "Not likely to churn"
            score := score_pct
            raw_prob := prob_churn
            threshold_used := params.threshold
            features_used := dfEnc.map Prod.fst }

/-!
Heap model of `_serve_transform` for its frame effect.  The source body
first rebinds `df = df.copy()` and then performs its in-place updates
(`df.columns = ...`, `df[c] = ...`) on that copy; `pd.get_dummies` and
`df.reindex` each allocate a fresh frame.  We model the heap as a list
of frames addressed by position, the copy as an append, and each
in-place statement as a `List.set` at the address it targets, so that
what the caller's frame looks like after the call is an actual theorem
rather than a by-construction triviality of pure code.
-/

/-- Read the frame at one heap address (empty frame when dangling). -/
def getRef (store : List DF) (r : Nat) : DF :=
  (store.get? r).getD []

/-- Overwrite the frame at one heap address, the effect of an in-place
pandas mutation. -/
def setRef (store : List DF) (r : Nat) (v : DF) : List DF :=
  store.set r v

/-- One in-place pandas mutation: overwrite the frame at address r with
a function of its current value. -/
def mutateAt (r : Nat) (f : DF → DF) (s : List DF) : List DF :=
  setRef s r (f (getRef s r))

/-- `_serve_transform` acting on a heap: the argument is the address of
the caller frame; the returned address holds the transformed frame.
`df = df.copy()` allocates the copy at the next free address; steps 1
and 2 mutate the copy column by column (collapsed into one heap write
per step); `pd.get_dummies` allocates a new frame, step 4 mutates that
frame in place, and `reindex` allocates the result. -/
def serve_transform_heap (featureCols : List String) (store : List DF) (ref : Nat) :
    List DF × Nat :=
  let r1 := store.length
  let s1 := store ++ [getRef store ref]
  let s4 := mutateAt r1 encodeBinaries
    (mutateAt r1 coerceNumerics (mutateAt r1 stripColumnNames s1))
  let r2 := s4.length
  let s6 := mutateAt r2 boolsToInt (s4 ++ [oneHotSingleRow (getRef s4 r1)])
  let r3 := s6.length
  (s6 ++ [reindexCols featureCols (getRef s6 r2)], r3)

/-!
Concrete fixtures for witnesses, built from the repository itself: the
raw record is the literal test record of test_inference.py (also spec
section 8), and the schema is a feature-column list of the shape the
training artifact persists.  Every claim theorem is quantified over the
schema and classifier; these fixtures only instantiate them.
-/

/-- The literal test customer of test_inference.py. -/
def testCustomer : DF :=
  [("gender", .cStr "Female"),
   ("SeniorCitizen", .cInt 1),
   ("Partner", .cStr "No"),
   ("Dependents", .cStr "No"),
   ("tenure", .cInt 1),
   ("PhoneService", .cStr "No"),
   ("MultipleLines", .cStr "No phone service"),
   ("InternetService", .cStr "DSL"),
   ("OnlineSecurity", .cStr "No"),
   ("OnlineBackup", .cStr "No"),
   ("DeviceProtection", .cStr "No"),
   ("TechSupport", .cStr "No"),
   ("StreamingTV", .cStr "No"),
   ("StreamingMovies", .cStr "No"),
   ("Contract", .cStr "Month-to-month"),
   ("PaperlessBilling", .cStr "Yes"),
   ("PaymentMethod", .cStr "Electronic check"),
   ("MonthlyCharges", .cNum (0.2985e2 : Rat)),
   ("TotalCharges", .cNum (29.85 : Rat))]

/-- A feature-column list of the shape `feature_columns.txt` persists
(one name per line, order-significant): the numeric and binary columns
plus one-hot indicator columns.  The artifact itself is produced by
training, outside src/; the claim theorems hold for every such list. -/
def testSchema : List String :=
  ["SeniorCitizen", "tenure", "MonthlyCharges", "TotalCharges",
   "gender", "Partner", "Dependents", "PhoneService", "PaperlessBilling",
   "MultipleLines_No phone service", "MultipleLines_Yes",
   "InternetService_Fiber optic", "InternetService_No",
   "Contract_One year", "Contract_Two year",
   "PaymentMethod_Credit card (automatic)", "PaymentMethod_Electronic check",
   "PaymentMethod_Mailed check"]

/-- A classifier whose predict_proba answers [[0.6, 0.4]] and whose hard
predict answers class 0:  the probability 0.4 clears the 0.35 threshold
while the hard label does not - the two surfaces disagree. -/
def mProba : ClassifierModel :=
  { hasPredictProba := true
    predictProba := fun _ => .ok [[(0.6 : Rat), (0.4 : Rat)]]
    predictHard := fun _ _ => .ok [0] }

/-- A classifier without a usable probability surface whose hard predict
answers class 1. -/
def mNoProba : ClassifierModel :=
  { hasPredictProba := false
    predictProba := fun _ => .error "no predict_proba"
    predictHard := fun _ _ => .ok [1] }

/-- A classifier whose hard predict raises. -/
def mFail : ClassifierModel :=
  { hasPredictProba := false
    predictProba := fun _ => .error "no predict_proba"
    predictHard := fun _ _ => .error "boom" }

/-- The literal test customer as the validated request record. -/
def testCustomerData : CustomerData :=
  { gender := "Female"
    Partner := "No"
    Dependents := "No"
    PhoneService := "No"
    MultipleLines := "No phone service"
    InternetService := "DSL"
    OnlineSecurity := "No"
    OnlineBackup := "No"
    DeviceProtection := "No"
    TechSupport := "No"
    StreamingTV := "No"
    StreamingMovies := "No"
    Contract := "Month-to-month"
    PaperlessBilling := "Yes"
    PaymentMethod := "Electronic check"
    tenure := 1
    MonthlyCharges := (29.85 : Rat)
    TotalCharges := (29.85 : Rat) }

/-- The working record of spec section 4.1 step 5: the frame after
steps 1-4 of `_serve_transform`, before schema alignment. -/
def workingRecord (df : DF) : DF :=
  boolsToInt (oneHotSingleRow (encodeBinaries (coerceNumerics (stripColumnNames df))))

/-- The fifteen categorical fields of the 18-field input record
(CustomerData of src/app/main.py). -/
def CATEGORICAL_FIELDS : List String :=
  ["gender", "Partner", "Dependents", "PhoneService", "MultipleLines",
   "InternetService", "OnlineSecurity", "OnlineBackup", "DeviceProtection",
   "TechSupport", "StreamingTV", "StreamingMovies", "Contract",
   "PaperlessBilling", "PaymentMethod"]

/-- All 18 fields present and well-typed: each categorical field holds a
string and each numeric field holds a number. -/
def isWellTyped18 (df : DF) : Bool :=
  (CATEGORICAL_FIELDS.all fun c =>
    match dfLookup c df with
    | some (.cStr _) => true
    | _ => false)
  && (NUMERIC_COLS.all fun c =>
    match dfLookup c df with
    | some (.cNum _) => true
    | some (.cInt _) => true
    | _ => false)

/-- A record carrying the malformed values the spec names: an
unparseable numeric ("abc"), a blank numeric (" " - the classic blank
TotalCharges of this dataset), and binary fields holding values outside
their two-entry tables. -/
def badRecord : DF :=
  [("gender", .cStr "nonbinary"),
   ("Partner", .cStr "No"),
   ("Dependents", .cStr "No"),
   ("tenure", .cStr "abc"),
   ("PhoneService", .cStr "No phone service"),
   ("MultipleLines", .cStr "No phone service"),
   ("InternetService", .cStr "DSL"),
   ("OnlineSecurity", .cStr "No"),
   ("OnlineBackup", .cStr "No"),
   ("DeviceProtection", .cStr "No"),
   ("TechSupport", .cStr "No"),
   ("StreamingTV", .cStr "No"),
   ("StreamingMovies", .cStr "No"),
   ("Contract", .cStr "Month-to-month"),
   ("PaperlessBilling", .cStr "Yes"),
   ("PaymentMethod", .cStr "Electronic check"),
   ("MonthlyCharges", .cNum (29.85 : Rat)),
   ("TotalCharges", .cStr " ")]

example : parseRat " 29.85 " = some ((2985 : Rat) / 100) := by with_unfolding_all decide
example : parseRat "1e2" = some 100 := by with_unfolding_all decide
example : parseRat "-1.5e-1" = some (-(15 : Rat) / 100) := by with_unfolding_all decide
example : parseRat "" = none := by with_unfolding_all decide
example : parseRat "abc" = none := by with_unfolding_all decide
example : binEncodeCell [("Female", 0), ("Male", 1)] (.cStr " Male ") = .cInt 1 := by
  with_unfolding_all decide
example : binEncodeCell [("No", 0), ("Yes", 1)] (.cStr "No phone service") = .cInt 0 := by
  with_unfolding_all decide
example :
    serve_transform ["tenure", "gender", "Contract_Two year"]
      [("gender", .cStr "Male"), ("tenure", .cStr "5"), ("Contract", .cStr "Two year")]
      = [("tenure", .cNum 5), ("gender", .cInt 1), ("Contract_Two year", .cInt 0)] := by
  with_unfolding_all decide

/-- Same probability surface as `mProba` but hard class 1: used to show
the hard label does not influence the outcome when a probability is
available. -/
def mProbaHard1 : ClassifierModel :=
  { hasPredictProba := true
    predictProba := fun _ => .ok [[(0.6 : Rat), (0.4 : Rat)]]
    predictHard := fun _ _ => .ok [1] }

/-- The result `predict` produces for `testCustomer` under `mProba`. -/
def testResultProba : PredictionResult :=
  { prediction := "Likely to churn"
    score := 40
    raw_prob := (0.4 : Rat)
    threshold_used := (0.35 : Rat)
    features_used := testSchema }

/-- The result `predict` produces for `testCustomer` under `mNoProba`. -/
def testResultNoProba : PredictionResult :=
  { prediction := "Likely to churn"
    score := 85
    raw_prob := (0.85 : Rat)
    threshold_used := (0.35 : Rat)
    features_used := testSchema }

/-!
Lookup lemmas for the transformation steps.
-/

theorem dfLookup_mapCol (c c' : String) (f : Cell → Cell) (d : DF) :
    dfLookup c (d.map (fun kv => if kv.1 = c' then (kv.1, f kv.2) else kv)) =
      if c = c' then (dfLookup c d).map f else dfLookup c d := by
  induction d with
  | nil => by_cases hc : c = c' <;> simp [dfLookup, hc]
  | cons kv rest ih =>
    simp only [List.map_cons]
    by_cases hk : kv.1 = c'
    · by_cases hc : kv.1 = c
      · have hcc : c = c' := by rw [← hc, hk]
        simp [dfLookup, hk, hc, hcc]
      · have hcc : ¬ c = c' := by
          rw [← hk]
          exact fun h => hc h.symm
        have hcc2 : ¬ c' = c := fun h => hcc h.symm
        simp [dfLookup, hk, hc, hcc, hcc2, ih]
    · by_cases hc : kv.1 = c
      · have hcc : ¬ c = c' := by
          rw [← hc]
          exact hk
        simp [dfLookup, hk, hc, hcc]
      · simp [dfLookup, hk, hc, ih]

theorem dfLookup_none_of_any_false (c : String) (d : DF)
    (h : d.any (fun kv => kv.1 = c) = false) : dfLookup c d = none := by
  induction d with
  | nil => rfl
  | cons kv rest ih =>
    simp only [List.any_cons, Bool.or_eq_false_iff, decide_eq_false_iff_not] at h
    simp [dfLookup, h.1, ih h.2]

theorem dfLookup_applyCol (c c' : String) (f : Cell → Cell) (d : DF) :
    dfLookup c (applyCol c' f d) =
      if c = c' then (dfLookup c d).map f else dfLookup c d := by
  unfold applyCol
  by_cases hany : d.any (fun kv => kv.1 = c') = true
  · simp only [hany, if_true, dfLookup_mapCol]
  · simp only [hany, if_false]
    by_cases hc : c = c'
    · subst hc
      have hfalse : d.any (fun kv => kv.1 = c) = false := by
        cases h2 : d.any (fun kv => kv.1 = c) with
        | false => rfl
        | true => exact absurd h2 hany
      simp [dfLookup_none_of_any_false c d hfalse]
    · simp [hc]

theorem dfLookup_coerceNumerics (c : String) (d : DF) :
    dfLookup c (coerceNumerics d) =
      if c ∈ NUMERIC_COLS then (dfLookup c d).map toNumericCell
      else dfLookup c d := by
  simp only [coerceNumerics, NUMERIC_COLS, List.foldl_cons, List.foldl_nil]
  rw [dfLookup_applyCol, dfLookup_applyCol, dfLookup_applyCol]
  by_cases h1 : c = "tenure"
  · subst h1
    simp
  · by_cases h2 : c = "MonthlyCharges"
    · subst h2
      simp
    · by_cases h3 : c = "TotalCharges"
      · subst h3
        simp
      · simp [h1, h2, h3]

theorem dfLookup_encodeBinaries_mem (c : String) (mapping : List (String × Int))
    (d : DF) (h : (c, mapping) ∈ BINARY_MAP) :
    dfLookup c (encodeBinaries d) = (dfLookup c d).map (binEncodeCell mapping) := by
  simp only [encodeBinaries, BINARY_MAP, List.foldl_cons, List.foldl_nil]
  rw [dfLookup_applyCol, dfLookup_applyCol, dfLookup_applyCol, dfLookup_applyCol,
      dfLookup_applyCol]
  simp only [BINARY_MAP, List.mem_cons, List.not_mem_nil, or_false,
    Prod.mk.injEq] at h
  rcases h with ⟨hc, hm⟩ | ⟨hc, hm⟩ | ⟨hc, hm⟩ | ⟨hc, hm⟩ | ⟨hc, hm⟩ <;>
    subst hc <;> subst hm <;> simp

theorem dfLookup_encodeBinaries_not_mem (c : String) (d : DF)
    (h : ¬ c ∈ BINARY_MAP.map Prod.fst) :
    dfLookup c (encodeBinaries d) = dfLookup c d := by
  simp only [BINARY_MAP, List.map_cons, List.map_nil, List.mem_cons,
    List.not_mem_nil, or_false, not_or] at h
  obtain ⟨h1, h2, h3, h4, h5⟩ := h
  simp only [encodeBinaries, BINARY_MAP, List.foldl_cons, List.foldl_nil]
  rw [dfLookup_applyCol, dfLookup_applyCol, dfLookup_applyCol, dfLookup_applyCol,
      dfLookup_applyCol]
  simp [h1, h2, h3, h4, h5]

theorem dfLookup_oneHot_keep (c : String) (v : Cell) (d : DF)
    (hl : dfLookup c d = some v) (hv : isObjCell v = false) :
    dfLookup c (oneHotSingleRow d) = some v := by
  induction d with
  | nil => simp [dfLookup] at hl
  | cons kv rest ih =>
    by_cases hc : kv.1 = c
    · simp only [dfLookup, hc, if_pos] at hl
      obtain rfl : kv.2 = v := Option.some.injEq _ _ ▸ hl
      simp [oneHotSingleRow, List.filter, hv, dfLookup, hc]
    · simp only [dfLookup, hc, if_false] at hl
      by_cases hobj : isObjCell kv.2
      · simp [oneHotSingleRow, List.filter, hobj] at ih ⊢
        exact ih hl
      · simp only [oneHotSingleRow, List.filter] at ih ⊢
        simp only [hobj]
        simp [dfLookup, hc]
        exact ih hl

theorem dfLookup_oneHot_none (c : String) (d : DF)
    (hl : dfLookup c d = none) :
    dfLookup c (oneHotSingleRow d) = none := by
  induction d with
  | nil => rfl
  | cons kv rest ih =>
    by_cases hc : kv.1 = c
    · simp [dfLookup, hc] at hl
    · simp only [dfLookup, hc, if_false] at hl
      by_cases hobj : isObjCell kv.2
      · simp [oneHotSingleRow, List.filter, hobj] at ih ⊢
        exact ih hl
      · simp only [oneHotSingleRow, List.filter] at ih ⊢
        simp only [hobj]
        simp [dfLookup, hc]
        exact ih hl

theorem dfLookup_boolsToInt (c : String) (d : DF) :
    dfLookup c (boolsToInt d) = (dfLookup c d).map boolToIntCell := by
  induction d with
  | nil => simp [boolsToInt, dfLookup]
  | cons kv rest ih =>
    by_cases hc : kv.1 = c
    · simp [boolsToInt, dfLookup, hc]
    · simp [boolsToInt, dfLookup, hc]
      simpa using ih

theorem map_fst_reindexCols (featureCols : List String) (d : DF) :
    (reindexCols featureCols d).map Prod.fst = featureCols := by
  simp only [reindexCols, List.map_map]
  have : (Prod.fst ∘ fun c : String => ((c, (dfLookup c d).getD (.cInt 0)) : String × Cell))
      = id := rfl
  rw [this, List.map_id]

theorem dfLookup_reindexCols_mem (c : String) (featureCols : List String) (d : DF)
    (h : c ∈ featureCols) :
    dfLookup c (reindexCols featureCols d) = some ((dfLookup c d).getD (.cInt 0)) := by
  induction featureCols with
  | nil => simp at h
  | cons c' rest ih =>
    by_cases hc : c' = c
    · subst hc
      simp [reindexCols, dfLookup]
    · rcases List.mem_cons.mp h with rfl | hmem
      · exact absurd rfl hc
      · simp only [reindexCols, List.map_cons, dfLookup, hc, if_false]
        exact ih hmem

theorem dfLookup_reindexCols_not_mem (c : String) (featureCols : List String) (d : DF)
    (h : ¬ c ∈ featureCols) :
    dfLookup c (reindexCols featureCols d) = none := by
  induction featureCols with
  | nil => rfl
  | cons c' rest ih =>
    simp only [List.mem_cons, not_or] at h
    simp only [reindexCols, List.map_cons, dfLookup]
    rw [if_neg (fun hh => h.1 hh.symm)]
    exact ih h.2

theorem serve_transform_eq_working (featureCols : List String) (df : DF) :
    serve_transform featureCols df = reindexCols featureCols (workingRecord df) := rfl

/-- Claim C1: for every raw record in which all 18 fields are present
and well-typed, the transformer output has exactly the columns of the
feature schema, in schema order; every schema column absent from the
working record is inserted with value 0, and every working-record
column absent from the schema is dropped. -/
theorem claim_C1_schema_alignment (featureCols : List String) (df : DF)
    (_hwt : isWellTyped18 df = true) :
    ((serve_transform featureCols df).map Prod.fst = featureCols)
    ∧ (∀ c, c ∈ featureCols → dfLookup c (workingRecord df) = none →
        dfLookup c (serve_transform featureCols df) = some (.cInt 0))
    ∧ (∀ c, ¬ c ∈ featureCols →
        dfLookup c (serve_transform featureCols df) = none) := by
  refine ⟨map_fst_reindexCols _ _, ?_, ?_⟩
  · intro c hmem hnone
    rw [serve_transform_eq_working, dfLookup_reindexCols_mem c _ _ hmem, hnone]
    rfl
  · intro c hnot
    rw [serve_transform_eq_working]
    exact dfLookup_reindexCols_not_mem c _ _ hnot

theorem claim_C1_witness :
    isWellTyped18 testCustomer = true
    ∧ (((serve_transform testSchema testCustomer).map Prod.fst = testSchema)
      ∧ (∀ c, c ∈ testSchema → dfLookup c (workingRecord testCustomer) = none →
          dfLookup c (serve_transform testSchema testCustomer) = some (.cInt 0))
      ∧ (∀ c, ¬ c ∈ testSchema →
          dfLookup c (serve_transform testSchema testCustomer) = none)) :=
  ⟨by decide, claim_C1_schema_alignment testSchema testCustomer (by decide)⟩

/-- Claim C2: for every input record whose schema keys are present as
strings or numbers, no exception escapes the transformer: the output is
a schema-shaped frame for every input whatsoever; a numeric field whose
string value does not parse becomes 0, and a binary field whose trimmed
rendering is missing from its two-entry table is encoded as 0 rather
than raising. -/
theorem claim_C2_transformer_total (featureCols : List String) (df : DF) :
    ((serve_transform featureCols df).map Prod.fst = featureCols)
    ∧ (∀ c s, c ∈ NUMERIC_COLS → c ∈ featureCols →
        dfLookup c (stripColumnNames df) = some (.cStr s) → parseRat s = none →
        dfLookup c (serve_transform featureCols df) = some (.cNum 0))
    ∧ (∀ c mapping v, (c, mapping) ∈ BINARY_MAP → c ∈ featureCols →
        dfLookup c (stripColumnNames df) = some v →
        mapping.lookup (strTrim (cellToPyStr v)) = none →
        dfLookup c (serve_transform featureCols df) = some (.cInt 0)) := by
  refine ⟨map_fst_reindexCols _ _, ?_, ?_⟩
  · intro c s hcn hcf hl hparse
    have hnotbin : ¬ c ∈ BINARY_MAP.map Prod.fst := by
      simp only [NUMERIC_COLS, List.mem_cons, List.not_mem_nil, or_false] at hcn
      rcases hcn with rfl | rfl | rfl <;> decide
    have h1 : dfLookup c (coerceNumerics (stripColumnNames df)) = some (.cNum 0) := by
      rw [dfLookup_coerceNumerics, if_pos hcn, hl]
      simp [toNumericCell, hparse]
    have h2 : dfLookup c (encodeBinaries (coerceNumerics (stripColumnNames df)))
        = some (.cNum 0) := by
      rw [dfLookup_encodeBinaries_not_mem c _ hnotbin, h1]
    have h3 : dfLookup c (oneHotSingleRow (encodeBinaries (coerceNumerics
        (stripColumnNames df)))) = some (.cNum 0) :=
      dfLookup_oneHot_keep c _ _ h2 rfl
    have h4 : dfLookup c (workingRecord df) = some (.cNum 0) := by
      unfold workingRecord
      rw [dfLookup_boolsToInt, h3]
      rfl
    rw [serve_transform_eq_working, dfLookup_reindexCols_mem c _ _ hcf, h4]
    rfl
  · intro c mapping v hbin hcf hl hmap
    have hnotnum : ¬ c ∈ NUMERIC_COLS := by
      simp only [BINARY_MAP, List.mem_cons, List.not_mem_nil, or_false,
        Prod.mk.injEq] at hbin
      rcases hbin with ⟨rfl, _⟩ | ⟨rfl, _⟩ | ⟨rfl, _⟩ | ⟨rfl, _⟩ | ⟨rfl, _⟩ <;> decide
    have h1 : dfLookup c (coerceNumerics (stripColumnNames df)) = some v := by
      rw [dfLookup_coerceNumerics, if_neg hnotnum, hl]
    have h2 : dfLookup c (encodeBinaries (coerceNumerics (stripColumnNames df)))
        = some (.cInt 0) := by
      rw [dfLookup_encodeBinaries_mem c mapping _ hbin, h1]
      simp [binEncodeCell, hmap]
    have h3 : dfLookup c (oneHotSingleRow (encodeBinaries (coerceNumerics
        (stripColumnNames df)))) = some (.cInt 0) :=
      dfLookup_oneHot_keep c _ _ h2 rfl
    have h4 : dfLookup c (workingRecord df) = some (.cInt 0) := by
      unfold workingRecord
      rw [dfLookup_boolsToInt, h3]
      rfl
    rw [serve_transform_eq_working, dfLookup_reindexCols_mem c _ _ hcf, h4]
    rfl

theorem claim_C2_witness :
    dfLookup "TotalCharges" (serve_transform testSchema badRecord) = some (.cNum 0)
    ∧ dfLookup "PhoneService" (serve_transform testSchema badRecord) = some (.cInt 0) :=
  ⟨(claim_C2_transformer_total testSchema badRecord).2.1 "TotalCharges" " "
      (by decide) (by decide) (by with_unfolding_all decide) (by with_unfolding_all decide),
   (claim_C2_transformer_total testSchema badRecord).2.2 "PhoneService"
      [("No", 0), ("Yes", 1)] (.cStr "No phone service")
      (by decide) (by decide) (by with_unfolding_all decide) (by with_unfolding_all decide)⟩

/-- Claim C8: the transformer is a deterministic function of its input
given the fixed feature schema and binary encoding table - two
invocations on equal copies of a record yield identical output. -/
theorem claim_C8_deterministic (featureCols : List String) (r1 r2 : DF)
    (h : r1 = r2) :
    serve_transform featureCols r1 = serve_transform featureCols r2 := by
  rw [h]

theorem claim_C8_witness :
    serve_transform testSchema testCustomer = serve_transform testSchema testCustomer :=
  claim_C8_deterministic testSchema testCustomer testCustomer rfl

example : predict testSchema mProba testCustomer = .ok testResultProba := by
  with_unfolding_all decide

example : predict testSchema mNoProba testCustomer = .ok testResultNoProba := by
  with_unfolding_all decide

example : predict testSchema mFail testCustomer
    = .error "Model prediction failed: boom" := by
  with_unfolding_all decide

/-- Claim C5: the risk label is "Likely to churn" exactly when the churn
probability is at least the 0.35 threshold and "Not likely to churn"
otherwise; when the classifier yields no usable probability the
probability is synthesised from the hard class label as 0.85 for class 1
and 0.15 otherwise. -/
theorem claim_C5_threshold_and_synthesis (featureCols : List String)
    (m : ClassifierModel) (input : DF) (res : PredictionResult)
    (h : predict featureCols m input = .ok res) :
    (res.prediction = "Likely to churn" ↔ res.raw_prob >= (0.35 : Rat))
    ∧ (res.prediction = "Not likely to churn" ↔ ¬ res.raw_prob >= (0.35 : Rat))
    ∧ (probChurn0 m (serve_transform featureCols input) < 0 →
        ∀ r rest, m.predictHard 0 (serve_transform featureCols input) = .ok (r :: rest) →
          res.raw_prob = if r = 1 then (0.85 : Rat) else (0.15 : Rat)) := by
  simp only [predict] at h
  rcases hh : m.predictHard 0 (serve_transform featureCols input) with e | preds
  · rw [hh] at h
    simp at h
  · rw [hh] at h
    rcases preds with _ | ⟨r, rest⟩
    · simp at h
    · simp only [Except.ok.injEq] at h
      subst h
      refine ⟨?_, ?_, ?_⟩
      · by_cases hrisk :
            (if probChurn0 m (serve_transform featureCols input) >= 0 then
                probChurn0 m (serve_transform featureCols input)
              else if r = 1 then (0.85 : Rat) else (0.15 : Rat)) >= (0.35 : Rat)
        · simp [hrisk]
        · simp [hrisk]
      · by_cases hrisk :
            (if probChurn0 m (serve_transform featureCols input) >= 0 then
                probChurn0 m (serve_transform featureCols input)
              else if r = 1 then (0.85 : Rat) else (0.15 : Rat)) >= (0.35 : Rat)
        · simp [hrisk]
        · simp [hrisk]
      · intro hneg r' rest' hh'
        simp only [Except.ok.injEq, List.cons.injEq] at hh'
        obtain ⟨rfl, -⟩ := hh' 
        have hcond : ¬ (probChurn0 m (serve_transform featureCols input) >= 0) :=
          not_le.mpr hneg
        simp only [hcond, if_false]

theorem claim_C5_witness :
    (testResultNoProba.prediction = "Likely to churn"
      ↔ testResultNoProba.raw_prob >= (0.35 : Rat))
    ∧ (testResultNoProba.prediction = "Not likely to churn"
      ↔ ¬ testResultNoProba.raw_prob >= (0.35 : Rat))
    ∧ (probChurn0 mNoProba (serve_transform testSchema testCustomer) < 0 →
        ∀ r rest,
          mNoProba.predictHard 0 (serve_transform testSchema testCustomer) = .ok (r :: rest) →
          testResultNoProba.raw_prob = if r = 1 then (0.85 : Rat) else (0.15 : Rat)) :=
  claim_C5_threshold_and_synthesis testSchema mNoProba testCustomer testResultNoProba
    (by with_unfolding_all decide)

/-- Claim C6: whenever a prediction result carries both score and
raw_prob, score equals raw_prob times 100 exactly. -/
theorem claim_C6_score_is_prob_times_100 (featureCols : List String)
    (m : ClassifierModel) (input : DF) (res : PredictionResult)
    (h : predict featureCols m input = .ok res) :
    res.score = res.raw_prob * 100 := by
  simp only [predict] at h
  rcases hh : m.predictHard 0 (serve_transform featureCols input) with e | preds
  · rw [hh] at h
    simp at h
  · rw [hh] at h
    rcases preds with _ | ⟨r, rest⟩
    · simp at h
    · simp only [Except.ok.injEq] at h
      subst h
      rfl

theorem claim_C6_witness : testResultProba.score = testResultProba.raw_prob * 100 :=
  claim_C6_score_is_prob_times_100 testSchema mProba testCustomer testResultProba
    (by with_unfolding_all decide)

/-- Claim C7 as stated is false: the wrapper message is "Model
prediction failed: <cause>", not "scoring failed: <cause>".  With a
classifier whose predict raises "boom", the surfaced error carries the
former text and differs from the text the claim prescribes. -/
theorem claim_C7_counterexample :
    predict testSchema mFail testCustomer = .error "Model prediction failed: boom"
    ∧ predict testSchema mFail testCustomer ≠ .error "scoring failed: boom" := by
  constructor
  · with_unfolding_all decide
  · with_unfolding_all decide

/-- Claim C7 amended: whenever the hard classifier invocation fails
inside the prediction service, the failure surfaces as the single
wrapped error "Model prediction failed: <cause>", and the classifier is
not retried - the outcome depends only on invocation 0 of the hard
predict surface. -/
theorem claim_C7_amended_wrapped_error :
    (∀ featureCols (m : ClassifierModel) input e,
        m.predictHard 0 (serve_transform featureCols input) = .error e →
        predict featureCols m input = .error ("Model prediction failed: " ++ e))
    ∧ (∀ featureCols input (m m' : ClassifierModel),
        m.hasPredictProba = m'.hasPredictProba →
        m.predictProba = m'.predictProba →
        m.predictHard 0 = m'.predictHard 0 →
        predict featureCols m input = predict featureCols m' input) := by
  constructor
  · intro featureCols m input e he
    simp only [predict, he]
  · intro featureCols input m m' h1 h2 h3
    simp only [predict, probChurn0, h1, h2, h3]

theorem claim_C7_witness :
    predict testSchema mFail testCustomer = .error ("Model prediction failed: " ++ "boom") :=
  claim_C7_amended_wrapped_error.1 testSchema mFail testCustomer "boom" rfl

/-- Claim C10: when the probability surface yields a usable value
(at least 0), the hard class label is ignored - two classifiers agreeing
on the probability but disagreeing on the hard label produce the same
label, score and probability. -/
theorem claim_C10_prob_overrides_hard_label (featureCols : List String)
    (m m' : ClassifierModel) (input : DF) (p : Rat)
    (hp : probChurn0 m (serve_transform featureCols input) = p)
    (hp' : probChurn0 m' (serve_transform featureCols input) = p)
    (hpos : p >= 0)
    (r r' : Int) (rest rest' : List Int)
    (hh : m.predictHard 0 (serve_transform featureCols input) = .ok (r :: rest))
    (hh' : m'.predictHard 0 (serve_transform featureCols input) = .ok (r' :: rest')) :
    ∃ res res', predict featureCols m input = .ok res
      ∧ predict featureCols m' input = .ok res'
      ∧ res.prediction = res'.prediction ∧ res.score = res'.score
      ∧ res.raw_prob = p ∧ res'.raw_prob = p := by
  refine
    ⟨{ prediction := if p >= (0.35 : Rat) then "Likely to churn" else "Not likely to churn"
       score := p * 100
       raw_prob := p
       threshold_used := (0.35 : Rat)
       features_used := (serve_transform featureCols input).map Prod.fst },
     { prediction := if p >= (0.35 : Rat) then "Likely to churn" else "Not likely to churn"
       score := p * 100
       raw_prob := p
       threshold_used := (0.35 : Rat)
       features_used := (serve_transform featureCols input).map Prod.fst },
     ?_, ?_, rfl, rfl, rfl, rfl⟩
  · simp only [predict, hh, hp, if_pos hpos]
  · simp only [predict, hh', hp', if_pos hpos]

theorem claim_C10_witness :
    (∃ res res', predict testSchema mProba testCustomer = .ok res
      ∧ predict testSchema mProbaHard1 testCustomer = .ok res'
      ∧ res.prediction = res'.prediction ∧ res.score = res'.score
      ∧ res.raw_prob = (0.4 : Rat) ∧ res'.raw_prob = (0.4 : Rat))
    ∧ predict testSchema mProba testCustomer = .ok testResultProba :=
  ⟨claim_C10_prob_overrides_hard_label testSchema mProba mProbaHard1 testCustomer
      (0.4 : Rat) (by with_unfolding_all decide) (by with_unfolding_all decide)
      (by with_unfolding_all decide) 0 1 [] [] rfl rfl,
   by with_unfolding_all decide⟩

/-- Claim C3 is false on the code: lines 277 and 286 of inference.py
hardcode the literal 0.35 as both the comparison threshold and the
reported threshold_used.  With persisted training parameters carrying
threshold 0.5, the service the spec describes answers threshold_used
0.5 (and a different label at probability 0.4), while the source
answers threshold_used 0.35 whatever the parameters say. -/
theorem claim_C3_counterexample :
    (predict testSchema mProba testCustomer).map PredictionResult.threshold_used
      = .ok (0.35 : Rat)
    ∧ (predictSpec ⟨(0.5 : Rat)⟩ testSchema mProba testCustomer).map
        PredictionResult.threshold_used = .ok (0.5 : Rat)
    ∧ predict testSchema mProba testCustomer
        ≠ predictSpec ⟨(0.5 : Rat)⟩ testSchema mProba testCustomer := by
  refine ⟨?_, ?_, ?_⟩ <;> with_unfolding_all decide

/-- Claim C3 amended: the decision threshold the prediction service
compares against and reports as threshold_used is the constant 0.35
written in the serving code, for every schema, classifier and input -
it is not read from persisted training configuration. -/
theorem claim_C3_amended_hardcoded_threshold (featureCols : List String)
    (m : ClassifierModel) (input : DF) (res : PredictionResult)
    (h : predict featureCols m input = .ok res) :
    res.threshold_used = (0.35 : Rat)
    ∧ (res.prediction = "Likely to churn" ↔ res.raw_prob >= (0.35 : Rat)) := by
  simp only [predict] at h
  rcases hh : m.predictHard 0 (serve_transform featureCols input) with e | preds
  · rw [hh] at h
    simp at h
  · rw [hh] at h
    rcases preds with _ | ⟨r, rest⟩
    · simp at h
    · simp only [Except.ok.injEq] at h
      subst h
      refine ⟨rfl, ?_⟩
      by_cases hrisk :
          (if probChurn0 m (serve_transform featureCols input) >= 0 then
              probChurn0 m (serve_transform featureCols input)
            else if r = 1 then (0.85 : Rat) else (0.15 : Rat)) >= (0.35 : Rat)
      · simp [hrisk]
      · simp [hrisk]

theorem claim_C3_witness :
    testResultProba.threshold_used = (0.35 : Rat)
    ∧ (testResultProba.prediction = "Likely to churn"
      ↔ testResultProba.raw_prob >= (0.35 : Rat)) :=
  claim_C3_amended_hardcoded_threshold testSchema mProba testCustomer testResultProba
    (by with_unfolding_all decide)

/-- Claim C4 evaluated at the failing input: on a successful prediction
the endpoint returns `{"prediction": result}` where result is the whole
dict from `predict`, so the response's prediction field holds a nested
object - not the string "Likely to churn" or "Not likely to churn" that
the endpoint docstring and the claim describe. -/
theorem claim_C4_nested_prediction_response :
    get_prediction testSchema mProba testCustomerData
      = .jObj [("prediction",
          .jObj [("prediction", .jStr "Likely to churn"),
                 ("score", .jNum 40),
                 ("raw_prob", .jNum (0.4 : Rat)),
                 ("threshold_used", .jNum (0.35 : Rat)),
                 ("features_used", .jStrList testSchema)])] := by
  with_unfolding_all rfl

theorem length_setRef (s : List DF) (r : Nat) (v : DF) :
    (setRef s r v).length = s.length := by
  simp [setRef]

theorem length_mutateAt (r : Nat) (f : DF → DF) (s : List DF) :
    (mutateAt r f s).length = s.length := by
  simp [mutateAt, setRef]

theorem get?_append_left_of_lt (s t : List DF) (n : Nat) (h : n < s.length) :
    (s ++ t).get? n = s.get? n := by
  induction s generalizing n with
  | nil => simp at h
  | cons a rest ih =>
    cases n with
    | zero => rfl
    | succ m =>
      simp only [List.cons_append, List.get?]
      exact ih m (Nat.lt_of_succ_lt_succ h)

theorem getRef_append_self (s : List DF) (v : DF) :
    getRef (s ++ [v]) s.length = v := by
  induction s with
  | nil => rfl
  | cons a rest ih => simp only [List.cons_append, getRef, List.get?] at ih ⊢; exact ih

theorem get?_setRef_ne (s : List DF) (r n : Nat) (v : DF) (h : n ≠ r) :
    (setRef s r v).get? n = s.get? n := by
  induction s generalizing r n with
  | nil => rfl
  | cons a rest ih =>
    cases r with
    | zero =>
      cases n with
      | zero => exact absurd rfl h
      | succ m => rfl
    | succ rr =>
      cases n with
      | zero => rfl
      | succ m =>
        simp only [setRef, List.set, List.get?]
        exact ih rr m (fun hm => h (by rw [hm]))

theorem get?_mutateAt_ne (r n : Nat) (f : DF → DF) (s : List DF) (h : n ≠ r) :
    (mutateAt r f s).get? n = s.get? n :=
  get?_setRef_ne s r n _ h

theorem getRef_setRef_self (s : List DF) (r : Nat) (v : DF) (h : r < s.length) :
    getRef (setRef s r v) r = v := by
  induction s generalizing r with
  | nil => simp at h
  | cons a rest ih =>
    cases r with
    | zero => rfl
    | succ rr =>
      simp only [setRef, List.set, getRef, List.get?] at *
      exact ih rr (Nat.lt_of_succ_lt_succ h)

theorem getRef_mutateAt_self (r : Nat) (f : DF → DF) (s : List DF) (h : r < s.length) :
    getRef (mutateAt r f s) r = f (getRef s r) :=
  getRef_setRef_self s r _ h

/-- Claim C9: the transformer never mutates the frame the caller passed
in: after a heap-level call of `_serve_transform` the caller frame is
unchanged (the function works only on the copy made on entry), and the
returned frame is the pure transform of the caller frame. -/
theorem claim_C9_no_caller_mutation (featureCols : List String) (store : List DF)
    (ref : Nat) (h : ref < store.length) :
    ((serve_transform_heap featureCols store ref).1.get? ref = store.get? ref)
    ∧ (getRef (serve_transform_heap featureCols store ref).1
        (serve_transform_heap featureCols store ref).2
        = serve_transform featureCols (getRef store ref)) := by
  have hlen1 : (store ++ [getRef store ref]).length = store.length + 1 := by simp
  have h1lt : store.length < (store ++ [getRef store ref]).length := by
    rw [hlen1]
    exact Nat.lt_succ_self _
  set s1 := store ++ [getRef store ref] with hs1
  set s4 := mutateAt store.length encodeBinaries
    (mutateAt store.length coerceNumerics (mutateAt store.length stripColumnNames s1))
    with hs4
  have hlen4 : s4.length = store.length + 1 := by
    rw [hs4, length_mutateAt, length_mutateAt, length_mutateAt, hlen1]
  have hget4 : getRef s4 store.length
      = encodeBinaries (coerceNumerics (stripColumnNames (getRef store ref))) := by
    rw [hs4]
    rw [getRef_mutateAt_self _ _ _ (by rw [length_mutateAt, length_mutateAt]; exact h1lt)]
    rw [getRef_mutateAt_self _ _ _ (by rw [length_mutateAt]; exact h1lt)]
    rw [getRef_mutateAt_self _ _ _ h1lt]
    rw [getRef_append_self]
  set s5 := s4 ++ [oneHotSingleRow (getRef s4 store.length)] with hs5
  have hlen5 : s5.length = store.length + 2 := by rw [hs5]; simp [hlen4]
  set s6 := mutateAt s4.length boolsToInt s5 with hs6
  have hlen6 : s6.length = store.length + 2 := by rw [hs6, length_mutateAt, hlen5]
  have hget6 : getRef s6 s4.length
      = boolsToInt (oneHotSingleRow (getRef s4 store.length)) := by
    rw [hs6, getRef_mutateAt_self _ _ _ (by rw [hlen5, hlen4]; exact Nat.lt_succ_self _)]
    rw [hs5, hlen4, ← hlen4, getRef_append_self]
  have heq : serve_transform_heap featureCols store ref
      = (s6 ++ [reindexCols featureCols (getRef s6 s4.length)], s6.length) := rfl
  constructor
  · rw [heq]
    have hr1 : ref < s6.length := by rw [hlen6]; omega
    rw [get?_append_left_of_lt _ _ _ hr1]
    rw [hs6, get?_mutateAt_ne _ _ _ _ (by rw [hlen4]; omega)]
    rw [hs5, get?_append_left_of_lt _ _ _ (by rw [hlen4]; omega)]
    rw [hs4]
    rw [get?_mutateAt_ne _ _ _ _ (by omega), get?_mutateAt_ne _ _ _ _ (by omega),
        get?_mutateAt_ne _ _ _ _ (by omega)]
    rw [hs1, get?_append_left_of_lt _ _ _ h]
  · rw [heq]
    simp only
    rw [getRef_append_self, hget6, hget4]
    rfl

theorem claim_C9_witness :
    ((serve_transform_heap testSchema [testCustomer] 0).1.get? 0
      = [testCustomer].get? 0)
    ∧ (getRef (serve_transform_heap testSchema [testCustomer] 0).1
        (serve_transform_heap testSchema [testCustomer] 0).2
        = serve_transform testSchema (getRef [testCustomer] 0)) :=
  claim_C9_no_caller_mutation testSchema [testCustomer] 0 (by decide)
